import Mathlib

/-!
Shallow embedding of the assessment-cleaning pipeline
(`clean-training-set.py`, `revisions.py`, `assessment.py`).

Conventions of the embedding:
* Wikitext content is carried as a `String`; the external markup parser
  (`mwparserfromhell.parse` + `filter_templates`) is abstracted as an
  environment-supplied function `parse : String → List Template`, and
  `get_assessments` is embedded faithfully over the resulting template list.
* The relational store is a `DB` value (page and revision tables); each SQL
  query of the source is embedded as a pure function over `DB`, with
  `ORDER BY rev_timestamp` realised by an insertion sort and `LIMIT k` by
  `List.take`.
* Database faults are injected through per-call-site failure schedules
  (`Nat → Option DBError`, attempt index to raised error); the per-site
  `while attempts < self.db_attempts: try/except` loops are embedded by
  `runRetry`, parameterised by the exception class the site catches.
* Python truthiness on optional integers (`if not pageid`) is embedded by
  `truthyOpt`, which is false on `none` and on `some 0`.
* Machine integers are `Nat`/`Int` (revision ids and timestamps are small
  positive values; no overflow is possible at these sizes).
-/

deriving instance DecidableEq for Except

namespace Assessments

/-- A wiki template as produced by the markup parser: a name and named
parameters (`has_param`/`get` of the source are `List.lookup` here). -/
structure Template where
  name : String
  params : List (String × String)
deriving DecidableEq

/-- `assessment.py`: the `Assessment` record (rating, importance, project). -/
structure Assessment where
  rating : String
  importance : Option String
  project : String
deriving DecidableEq

/-- `AssessmentFinder.__init__` line 52: the static alias table
`self.translations = {u'maths rating': u'wikiproject mathematics'}`. -/
def translations : List (String × String) :=
  [("maths rating", "wikiproject mathematics")]

/-- Python `unicode.lower()` on the (ASCII) strings this pipeline handles,
character by character. -/
def strLower (s : String) : String := ⟨s.data.map Char.toLower⟩

/-- Python `unicode.strip()`: drop whitespace from both ends. -/
def strTrim (s : String) : String :=
  ⟨((s.data.dropWhile Char.isWhitespace).reverse.dropWhile
      Char.isWhitespace).reverse⟩

/-- The regex test `re.match('wikiproject\s+', unicode(temp.name), re.I)`:
the name starts (case-insensitively) with `wikiproject` followed by at
least one whitespace character. -/
def isWikiprojectPattern (s : String) : Bool :=
  let l := (strLower s).data
  List.isPrefixOf "wikiproject".data l &&
    (match l.drop 11 with
     | c :: _ => c.isWhitespace
     | [] => false)

/-- `AssessmentFinder.get_assessments` (lines 54-84): a template is a
candidate iff its name matches the wikiproject pattern, or its raw name is a
key of `translations`, or it has a `class` parameter; a candidate without a
`class` parameter is skipped (the `ValueError` branch); the project recorded
is the template's own lower-cased name. -/
def get_assessments (templates : List Template) : List Assessment :=
  templates.filterMap (fun t =>
    if isWikiprojectPattern t.name
        || (translations.lookup t.name).isSome
        || (t.params.lookup "class").isSome then
      match t.params.lookup "class" with
      | none => none
      | some v =>
          some { rating := strLower (strTrim v),
                 importance := (t.params.lookup "importance").map
                   (fun iv => strLower (strTrim iv)),
                 project := strLower t.name }
    else none)

/-- `clean_article` lines 328-334: the fixed quality scale `wp10_scale`. -/
def wp10_scale : List (String × Nat) :=
  [("stub", 0), ("start", 1), ("c", 2), ("b", 3), ("ga", 4), ("a", 5),
   ("fa", 6)]

/-- Python `max` over a list of naturals (`none` on the empty list, where the
source instead takes the `if not cur_idx` branch). -/
def listMax : List Nat → Option Nat
  | [] => none
  | x :: xs => some (xs.foldl Nat.max x)

/-- One row of the `revision` table. -/
structure Row where
  rev_id : Nat
  rev_page : Nat
  rev_timestamp : Nat
  rev_sha1 : String
deriving DecidableEq

/-- One row of the `page` table. -/
structure Page where
  page_id : Nat
  page_namespace : Nat
  page_title : String
  page_latest : Nat
deriving DecidableEq

/-- The relational history store queried by the script. -/
structure DB where
  pages : List Page
  revisions : List Row
deriving DecidableEq

/-- `MySQLdb` exception classes relevant to the source: `OperationalError`
(transient connectivity failure) and the other concrete subclasses of the
base class `MySQLdb.Error` (non-transient). -/
inductive DBError where
  | operational
  | programming
  | integrity
deriving DecidableEq

/-- `except MySQLdb.OperationalError` (lines 251, 359, 386, 480): only the
transient class is caught. -/
def opCatches : DBError → Bool
  | .operational => true
  | _ => false

/-- `except MySQLdb.Error` (line 506, the fallback next-revision query): the
base class, so every database error is caught. -/
def errCatches : DBError → Bool := fun _ => true

/-- Outcome of one retry loop: rows obtained, attempts exhausted, or an
uncaught exception propagating out of the loop. -/
inductive QueryResult (α : Type) where
  | ok (a : α)
  | exhausted
  | raised (e : DBError)
deriving DecidableEq

/-- The `attempts = 0; while attempts < self.db_attempts: try ... except
CAUGHT: attempts += 1; reconnect; else: break` discipline.  `fail n` is the
error raised by the n-th execution (`none` = success), `result` the rows the
query yields on success, the last two arguments the current attempt index
and the remaining budget. -/
def runRetry {α : Type} (catches : DBError → Bool) (fail : Nat → Option DBError)
    (result : α) : Nat → Nat → QueryResult α
  | _, 0 => .exhausted
  | attempt, fuel + 1 =>
    match fail attempt with
    | none => .ok result
    | some e =>
        if catches e then runRetry catches fail result (attempt + 1) fuel
        else .raised e

/-- Python truthiness of an optional integer (`if not x`): false for `None`
and for `0`. -/
def truthyOpt : Option Nat → Bool
  | none => false
  | some n => n ≠ 0

/-- Insert a row into a list sorted by strictly descending timestamp. -/
def insertTsDesc (x : Row) : List Row → List Row
  | [] => [x]
  | y :: ys =>
      if y.rev_timestamp ≤ x.rev_timestamp then x :: y :: ys
      else y :: insertTsDesc x ys

/-- `ORDER BY rev_timestamp DESC`. -/
def sortTsDesc : List Row → List Row
  | [] => []
  | x :: xs => insertTsDesc x (sortTsDesc xs)

/-- Insert a row into a list sorted by ascending timestamp. -/
def insertTsAsc (x : Row) : List Row → List Row
  | [] => [x]
  | y :: ys =>
      if x.rev_timestamp ≤ y.rev_timestamp then x :: y :: ys
      else y :: insertTsAsc x ys

/-- `ORDER BY rev_timestamp ASC`. -/
def sortTsAsc : List Row → List Row
  | [] => []
  | x :: xs => insertTsAsc x (sortTsAsc xs)

/-- The subquery `SELECT rev_timestamp FROM revision WHERE rev_id = r`,
with the source's convention that the last returned row wins. -/
def revTs (db : DB) (revid : Nat) : Option Nat :=
  ((db.revisions.filter (fun r => r.rev_id = revid)).getLast?).map
    (fun r => r.rev_timestamp)

/-- `is_reverted`'s `cur_query` (lines 200-202) plus the iteration at lines
230-232: page id and timestamp of the pivot revision, last row winning. -/
def curPageTs (db : DB) (revid : Nat) : Option (Nat × Nat) :=
  ((db.revisions.filter (fun r => r.rev_id = revid)).getLast?).map
    (fun r => (r.rev_page, r.rev_timestamp))

/-- `past_query` (lines 205-210): up to `radius` checksums of revisions of
the page strictly before the pivot timestamp, most recent first.  The source
accumulates them into a Python set; only membership is ever used, so a list
with list membership is an equivalent embedding. -/
def pastChecksums (db : DB) (pageid ts radius : Nat) : List String :=
  ((sortTsDesc (db.revisions.filter
      (fun r => r.rev_page = pageid && r.rev_timestamp < ts))).take
    radius).map (fun r => r.rev_sha1)

/-- `fut_query` (lines 213-218): up to `radius` checksums of revisions of
the page strictly after the pivot timestamp, in ascending time order. -/
def futChecksums (db : DB) (pageid ts radius : Nat) : List String :=
  ((sortTsAsc (db.revisions.filter
      (fun r => r.rev_page = pageid && ts < r.rev_timestamp))).take
    radius).map (fun r => r.rev_sha1)

/-- The scan at lines 266-272: walk the future checksums in order and return
true as soon as one is in the past set, false if none is. -/
def walkFuture : List String → List String → Bool
  | [], _ => false
  | c :: rest, past => if c ∈ past then true else walkFuture rest past

/-- A talk page revision (`TPRevision`, lines 27-31). -/
structure TPRevision where
  id : Nat
  timestamp : Nat
  content : Option String
deriving DecidableEq

/-- One entry of `data['query']['pages']` in `revisions.py`: a page id and,
when present and non-empty, its list of `(revid, content)` pairs, where the
content is `none` when the `'*'` key is missing (deleted/suppressed). -/
structure APIPage where
  pageid : Nat
  revdata : Option (List (Nat × Option String))
deriving DecidableEq

/-- The sequence of `revisions_map[revid].content = content` assignments the
response produces: pages lacking a `revisions` entry (or with an empty one)
are skipped (`revisions.py` lines 77-81), the rest contribute their
revisions in order. -/
def apiAssignments (resp : List APIPage) : List (Nat × Option String) :=
  resp.flatMap (fun p =>
    match p.revdata with
    | none => []
    | some [] => []
    | some rs => rs)

/-- The net content the response assigns to a revision id (`some c` when at
least one assignment targets it, the last one winning; `none` when the id is
never assigned, in which case the stub keeps its prior content). -/
def lastContentFor (resp : List APIPage) (revid : Nat) : Option (Option String) :=
  (apiAssignments resp).foldl
    (fun acc pr => if pr.1 = revid then some pr.2 else acc) none

/-- `revisions.py` `get_revisions`: returns the same list it was given, each
stub's content replaced by what the API response assigned to its id (batching
in tens and continuation-following only shape the requests; their net effect
on each stub is this per-id assignment). -/
def get_revisions (resp : List APIPage) (revs : List TPRevision) :
    List TPRevision :=
  revs.map (fun r =>
    match lastContentFor resp r.id with
    | none => r
    | some c => { r with content := c })

/-- The world a resolution run executes against: the relational store, the
content API response, the external markup parser, and per-call-site failure
schedules (attempt index to raised exception) for the five retry loops. -/
structure Env where
  db : DB
  api : List APIPage
  parse : String → List Template
  latestFail : Nat → Option DBError
  tpFail : Nat → Option DBError
  recentFail : Nat → Option DBError
  nextFail : Nat → Option DBError
  revertFail : Nat → Nat → Option DBError

/-- Content of a talk revision as the scan sees it after `get_revisions` ran
on its batch: the API's last assignment for the id, else the stub's initial
`none`. -/
def fetchContent (env : Env) (revid : Nat) : Option String :=
  match lastContentFor env.api revid with
  | some c => c
  | none => none

/-- `is_reverted` (lines 191-272).  The whole `try` block is one retry unit;
exhaustion returns `none` (Python `return` with no value, line 262).  When
the point query yields no row — or a falsy page id — the source `break`s out
and falls through to the checksum walk over the still-empty windows. -/
def is_reverted (env : Env) (revid radius : Nat) :
    Except DBError (Option Bool) :=
  match runRetry opCatches (env.revertFail revid) () 0 3 with
  | .raised e => .error e
  | .exhausted => .ok none
  | .ok _ =>
    match curPageTs env.db revid with
    | none => .ok (some (walkFuture [] []))
    | some (p, t) =>
        if p = 0 then .ok (some (walkFuture [] []))
        else .ok (some (walkFuture (futChecksums env.db p t radius)
                                   (pastChecksums env.db p t radius)))

/-- What the per-revision body of the scan loop (lines 413-457) does with
one revision before branching. -/
inductive StepKind where
  | skip
  | unassessed
  | rated (m : Nat)
deriving DecidableEq

/-- Lines 418-446: skip on falsy content (absent or empty); otherwise
truncate to 8 KiB, parse, collect the ordinals of ratings that map through
`wp10_scale`; empty means assessment-free, otherwise their maximum. -/
def classify (env : Env) (revid : Nat) : StepKind :=
  match fetchContent env revid with
  | none => .skip
  | some s =>
    if s.data.isEmpty then .skip
    else
      let s2 := if 8 * 1024 < s.data.length then
          (⟨s.data.take (8 * 1024)⟩ : String)
        else s
      let cur := (get_assessments (env.parse s2)).filterMap
        (fun a => wp10_scale.lookup a.rating)
      match listMax cur with
      | none => .unassessed
      | some m => .rated m

/-- The backward scan (lines 405-459): fold over the talk revisions, newest
first, carrying `prev_tprevid` (initially -1).  A rating equal to the target
updates `prev_tprevid` and continues; a different rating stops; an
assessment-free revision stops unless `is_reverted` is truthy; the batching
in twenties only groups the content fetches and does not change the order of
inspection. -/
def scanRevs (env : Env) (start_idx : Nat) :
    List TPRevision → Int → Except DBError Int
  | [], prev => .ok prev
  | r :: rest, prev =>
    match classify env r.id with
    | .skip => scanRevs env start_idx rest prev
    | .rated m =>
        if m = start_idx then scanRevs env start_idx rest (Int.ofNat r.id)
        else .ok prev
    | .unassessed =>
        match is_reverted env r.id 15 with
        | .error e => .error e
        | .ok b =>
            if b.getD false then scanRevs env start_idx rest prev
            else .ok prev

/-- One row of `latest_query` (lines 284-292). -/
structure LatestRow where
  art_id : Nat
  talk_id : Nat
  art_latest : Nat
  talk_latest : Nat
deriving DecidableEq

/-- `latest_query`: join `page` with itself on `page_title`, the second copy
restricted to namespace 1, the first to the given page id. -/
def latest_rows (db : DB) (pageid : Nat) : List LatestRow :=
  (db.pages.filter (fun ap => ap.page_id = pageid)).flatMap (fun ap =>
    (db.pages.filter (fun tp =>
        tp.page_namespace = 1 && tp.page_title = ap.page_title)).map
      (fun tp => ⟨ap.page_id, tp.page_id, ap.page_latest, tp.page_latest⟩))

/-- Lines 355-358: each row overwrites `revid`, `talkpageid`, `talkpagerev`
(the last row wins); `pageid` and the class are never assigned. -/
structure ArticleRecord where
  revid : Option Nat
  pageid : Nat
  talkpageid : Option Nat
  talkpagerev : Option Nat
  quality_class : String
deriving DecidableEq

/-- The fold the cursor loop at lines 355-358 performs on the record. -/
def applyLatest (rows : List LatestRow) (rec : ArticleRecord) : ArticleRecord :=
  rows.foldl
    (fun r row => { r with revid := some row.art_latest,
                           talkpageid := some row.talk_id,
                           talkpagerev := some row.talk_latest }) rec

/-- `tp_revquery` (lines 296-302): talk page revisions strictly before the
timestamp of the given article revision, newest first; an unresolvable inner
subquery (missing or `NULL` parameters) yields no rows. -/
def tp_rev_list (db : DB) (tpid? revid? : Option Nat) : List TPRevision :=
  match tpid?, revid? with
  | some tpid, some revid =>
    match revTs db revid with
    | none => []
    | some ts =>
        (sortTsDesc (db.revisions.filter
            (fun r => r.rev_page = tpid && r.rev_timestamp < ts))).map
          (fun r => ⟨r.rev_id, r.rev_timestamp, none⟩)
  | _, _ => []

/-- `recent_revquery` (lines 306-314): most recent article revision strictly
before the talk revision's timestamp. -/
def recent_rev (db : DB) (pageid tp_revid : Nat) : Option Nat :=
  match revTs db tp_revid with
  | none => none
  | some ts =>
      ((sortTsDesc (db.revisions.filter
          (fun r => r.rev_page = pageid && r.rev_timestamp < ts))).head?).map
        (fun r => r.rev_id)

/-- `next_revquery` (lines 318-326): first article revision strictly after
the talk revision's timestamp. -/
def next_rev (db : DB) (pageid tp_revid : Nat) : Option Nat :=
  match revTs db tp_revid with
  | none => none
  | some ts =>
      ((sortTsAsc (db.revisions.filter
          (fun r => r.rev_page = pageid && ts < r.rev_timestamp))).head?).map
        (fun r => r.rev_id)

/-- A Python exception escaping `clean_article`: the `KeyError` of the
`wp10_scale[...]` lookup at line 337, or a database error no handler
catches. -/
inductive PyError where
  | keyError
  | dbError (e : DBError)
deriving DecidableEq

/-- `clean_article` (lines 274-524).  `.ok` carries the record as mutated on
a plain return; `.error` is an exception propagating to the caller.  The
retry loops are `runRetry` at the exception class each site actually
catches; exhaustion at the first three sites returns early with the record
as mutated so far; the fallback site has no exhaustion check of its own and
merges with the `article_revision` still being falsy (lines 515-517). -/
def clean_article (env : Env) (rec0 : ArticleRecord) :
    Except PyError ArticleRecord :=
  match wp10_scale.lookup (strLower rec0.quality_class) with
  | none => .error .keyError
  | some start_idx =>
    match runRetry opCatches env.latestFail (latest_rows env.db rec0.pageid)
        0 3 with
    | .raised e => .error (.dbError e)
    | .exhausted => .ok rec0
    | .ok rows =>
      let rec1 := applyLatest rows rec0
      match runRetry opCatches env.tpFail
          (tp_rev_list env.db rec1.talkpageid rec1.revid) 0 3 with
      | .raised e => .error (.dbError e)
      | .exhausted => .ok rec1
      | .ok tp_revs =>
        if tp_revs.isEmpty then .ok rec1
        else
          match scanRevs env start_idx tp_revs (-1) with
          | .error e => .error (.dbError e)
          | .ok prev =>
            if prev < 0 then .ok rec1
            else
              let rec2 := { rec1 with talkpagerev := some prev.toNat }
              match runRetry opCatches env.recentFail
                  (recent_rev env.db rec0.pageid prev.toNat) 0 3 with
              | .raised e => .error (.dbError e)
              | .exhausted => .ok rec2
              | .ok arev? =>
                if truthyOpt arev? then .ok { rec2 with revid := arev? }
                else
                  match runRetry errCatches env.nextFail
                      (next_rev env.db rec0.pageid prev.toNat) 0 3 with
                  | .raised e => .error (.dbError e)
                  | .exhausted => .ok rec2
                  | .ok arev2? =>
                      if truthyOpt arev2? then .ok { rec2 with revid := arev2? }
                      else .ok rec2

/-- `clean_training_set`'s per-article loop (lines 119-126): each record is
resolved and written in input order; an exception escaping `clean_article`
has no handler, so it aborts the entire loop — records after it are never
processed and never written. -/
def clean_training_set (env : Env) :
    List ArticleRecord → List ArticleRecord × Option PyError
  | [] => ([], none)
  | a :: rest =>
    match clean_article env a with
    | .error e => ([], some e)
    | .ok a2 =>
      match clean_training_set env rest with
      | (out, err) => (a2 :: out, err)

/-! ### Concrete worlds used to exercise the embedding -/

/-- A small history: article page 1 ("X", latest revision 100 at time 50,
earlier revision 95 at time 12) and its talk page 2 (revisions 200..203 at
times 10, 15, 20, 30). -/
def dbW : DB :=
  { pages := [⟨1, 0, "X", 100⟩, ⟨2, 1, "X", 203⟩],
    revisions := [⟨95, 1, 12, "h95"⟩, ⟨100, 1, 50, "h100"⟩,
                  ⟨200, 2, 10, "t200"⟩, ⟨201, 2, 15, "t201"⟩,
                  ⟨202, 2, 20, "t202"⟩, ⟨203, 2, 30, "t203"⟩] }

/-- A markup parser for the test worlds: `"wpb"` parses to one wikiproject
template rated b, `"wpc"` to one rated c, anything else to no templates. -/
def parseW : String → List Template := fun s =>
  if s = "wpb" then [⟨"wikiproject x", [("class", "b")]⟩]
  else if s = "wpc" then [⟨"wikiproject x", [("class", "c")]⟩]
  else []

/-- Failure-free world over `dbW`: talk revisions 203 and 202 carry a b
rating, 201 a c rating; revision id 999 (absent from the store) has
template-free content `"noise"`. -/
def envW : Env :=
  { db := dbW,
    api := [⟨2, some [(203, some "wpb"), (202, some "wpb"),
                      (201, some "wpc"), (999, some "noise")]⟩],
    parse := parseW,
    latestFail := fun _ => none, tpFail := fun _ => none,
    recentFail := fun _ => none, nextFail := fun _ => none,
    revertFail := fun _ _ => none }

/-- An input record for article page 1 with training class b. -/
def recW : ArticleRecord := ⟨none, 1, none, none, "b"⟩

/-- An input record whose class label is not on the quality scale. -/
def badRecW : ArticleRecord := ⟨none, 1, none, none, "unknown"⟩

/-- A history in which the talk page's only revision (200, at time 80) is
later than the article's latest revision (100, at time 50), so the list of
earlier talk revisions is empty. -/
def dbL : DB :=
  { pages := [⟨1, 0, "X", 100⟩, ⟨2, 1, "X", 200⟩],
    revisions := [⟨100, 1, 50, "h100"⟩, ⟨200, 2, 80, "t200"⟩] }

/-- Failure-free world over `dbL`. -/
def envL : Env :=
  { db := dbL, api := [], parse := fun _ => [],
    latestFail := fun _ => none, tpFail := fun _ => none,
    recentFail := fun _ => none, nextFail := fun _ => none,
    revertFail := fun _ _ => none }

/-- A history where the boundary talk revision (200, at time 10) predates
every article revision, so the resolver must take the fallback query. -/
def dbF : DB :=
  { pages := [⟨1, 0, "Y", 100⟩, ⟨2, 1, "Y", 200⟩],
    revisions := [⟨100, 1, 50, "h100"⟩, ⟨200, 2, 10, "t200"⟩] }

/-- World over `dbF` whose fallback next-revision query raises a
non-transient `ProgrammingError` on its first attempt and succeeds on the
second. -/
def envF : Env :=
  { db := dbF, api := [⟨2, some [(200, some "wpb")]⟩], parse := parseW,
    latestFail := fun _ => none, tpFail := fun _ => none,
    recentFail := fun _ => none,
    nextFail := fun n => if n = 0 then some .programming else none,
    revertFail := fun _ _ => none }

/-- A content API response in which revision 777 is returned without a
content field (deleted/suppressed). -/
def resp9 : List APIPage := [⟨5, some [(777, none)]⟩]

/-- World whose API response is `resp9`. -/
def env9 : Env :=
  { db := ⟨[], []⟩, api := resp9, parse := fun _ => [],
    latestFail := fun _ => none, tpFail := fun _ => none,
    recentFail := fun _ => none, nextFail := fun _ => none,
    revertFail := fun _ _ => none }

/-! ### General lemmas about the embedded operations -/

/-- The cursor fold of the latest-revision query never touches `pageid` or
the class label. -/
theorem applyLatest_frame (rows : List LatestRow) (rec : ArticleRecord) :
    (applyLatest rows rec).pageid = rec.pageid ∧
    (applyLatest rows rec).quality_class = rec.quality_class := by
  induction rows generalizing rec with
  | nil => exact ⟨rfl, rfl⟩
  | cons row rows ih => simpa [applyLatest] using ih _

/-- A retry loop whose next execution succeeds returns its rows at once. -/
theorem runRetry_first_ok {α : Type} (c : DBError → Bool)
    (fail : Nat → Option DBError) (r : α) (a n : Nat) (h : fail a = none) :
    runRetry c fail r a (n + 1) = .ok r := by
  simp [runRetry, h]

/-- An error the call site's `except` clause does not cover propagates at
once, with no further attempt. -/
theorem runRetry_uncaught {α : Type} (c : DBError → Bool)
    (fail : Nat → Option DBError) (r : α) (a n : Nat) (e : DBError)
    (h : fail a = some e) (hc : c e = false) :
    runRetry c fail r a (n + 1) = .raised e := by
  simp [runRetry, h, hc]

/-- A caught error consumes one attempt and the loop goes round again. -/
theorem runRetry_caught {α : Type} (c : DBError → Bool)
    (fail : Nat → Option DBError) (r : α) (a n : Nat) (e : DBError)
    (h : fail a = some e) (hc : c e = true) :
    runRetry c fail r a (n + 1) = runRetry c fail r (a + 1) n := by
  simp [runRetry, h, hc]

/-- The future-checksum walk is exactly the non-emptiness of the
intersection of the two windows. -/
theorem walkFuture_true_iff (f p : List String) :
    walkFuture f p = true ↔ ∃ c, c ∈ f ∧ c ∈ p := by
  induction f with
  | nil => simp [walkFuture]
  | cons c rest ih =>
    by_cases h : c ∈ p
    · constructor
      · intro _
        exact ⟨c, List.mem_cons_self c rest, h⟩
      · intro _
        simp [walkFuture, h]
    · simp only [walkFuture, if_neg h, ih, List.mem_cons]
      constructor
      · rintro ⟨d, hd, hdp⟩
        exact ⟨d, Or.inr hd, hdp⟩
      · rintro ⟨d, hd | hd, hdp⟩
        · exact absurd (hd ▸ hdp) h
        · exact ⟨d, hd, hdp⟩

/-- Membership is preserved by the descending insertion. -/
theorem mem_insertTsDesc (x y : Row) (l : List Row) :
    y ∈ insertTsDesc x l ↔ y = x ∨ y ∈ l := by
  induction l with
  | nil => simp [insertTsDesc]
  | cons z zs ih =>
    simp only [insertTsDesc]
    split
    · simp [List.mem_cons]
    · simp only [List.mem_cons, ih]
      tauto

/-- The descending sort is a permutation as far as membership goes. -/
theorem mem_sortTsDesc (y : Row) (l : List Row) :
    y ∈ sortTsDesc l ↔ y ∈ l := by
  induction l with
  | nil => simp [sortTsDesc]
  | cons z zs ih => simp [sortTsDesc, mem_insertTsDesc, ih]

/-- Every talk revision the backward scan is handed has a timestamp
strictly below the starting article revision's timestamp. -/
theorem tp_rev_list_timestamp_lt (db : DB) (tpid artrev ts : Nat)
    (r : TPRevision) (hts : revTs db artrev = some ts)
    (hr : r ∈ tp_rev_list db (some tpid) (some artrev)) :
    r.timestamp < ts := by
  simp only [tp_rev_list, hts, List.mem_map] at hr
  obtain ⟨row, hrow, hmap⟩ := hr
  rw [mem_sortTsDesc, List.mem_filter] at hrow
  have hcond := hrow.2
  simp only [Bool.and_eq_true, decide_eq_true_eq] at hcond
  rw [← hmap]
  exact hcond.2

/-- The scan's result is either the accumulator it started from or the id
of one of the scanned revisions. -/
theorem scanRevs_ok_mem (env : Env) (s : Nat) (l : List TPRevision)
    (p0 p : Int) (h : scanRevs env s l p0 = .ok p) :
    p = p0 ∨ ∃ r ∈ l, p = Int.ofNat r.id := by
  induction l generalizing p0 with
  | nil =>
    simp only [scanRevs, Except.ok.injEq] at h
    exact Or.inl h.symm
  | cons r rest ih =>
    simp only [scanRevs] at h
    split at h
    · rcases ih _ h with h1 | ⟨r2, hr2, hp2⟩
      · exact Or.inl h1
      · exact Or.inr ⟨r2, List.mem_cons_of_mem _ hr2, hp2⟩
    · split at h
      · rcases ih _ h with h1 | ⟨r2, hr2, hp2⟩
        · exact Or.inr ⟨r, List.mem_cons_self _ _, h1⟩
        · exact Or.inr ⟨r2, List.mem_cons_of_mem _ hr2, hp2⟩
      · simp only [Except.ok.injEq] at h
        exact Or.inl h.symm
    · split at h
      · simp at h
      · split at h
        · rcases ih _ h with h1 | ⟨r2, hr2, hp2⟩
          · exact Or.inl h1
          · exact Or.inr ⟨r2, List.mem_cons_of_mem _ hr2, hp2⟩
        · simp only [Except.ok.injEq] at h
          exact Or.inl h.symm

/-! ### Claim C1 -/

/-- Claim C1, as stated, is false: an unmapped initial quality class is not
logged-and-skipped with the pipeline continuing.  Concretely, with a first
record of class "unknown" followed by a perfectly resolvable record, the
run stops with a `KeyError` and produces no output rows at all, even though
the second record on its own resolves fine. -/
theorem c1_pipeline_stops_cex :
    clean_training_set envW [badRecW, recW] = ([], some .keyError) ∧
    clean_article envW recW = .ok ⟨some 95, 1, some 2, some 202, "b"⟩ := by
  decide

/-- Claim C1 (amended): an initial quality class that does not map into the
scale raises an uncaught `KeyError` at entry to `clean_article`; since
`clean_training_set` has no handler around the call, the exception aborts
the entire pipeline at that record — it is not skipped, and the remaining
records are never processed. -/
theorem c1_unknown_class_aborts_pipeline (env : Env) (rec : ArticleRecord)
    (rest : List ArticleRecord)
    (h : wp10_scale.lookup (strLower rec.quality_class) = none) :
    clean_article env rec = .error .keyError ∧
    clean_training_set env (rec :: rest) = ([], some .keyError) := by
  have h1 : clean_article env rec = .error .keyError := by
    unfold clean_article
    rw [h]
  refine ⟨h1, ?_⟩
  simp only [clean_training_set, h1]

/-- Claim C1 witness: the amended statement at a concrete world. -/
theorem c1_unknown_class_aborts_pipeline_w :
    clean_article envW badRecW = .error .keyError ∧
    clean_training_set envW (badRecW :: [recW]) = ([], some .keyError) :=
  c1_unknown_class_aborts_pipeline envW badRecW [recW] (by decide)

/-! ### Claim C5 -/

/-- Claim C5, as stated, is false in its mapping half: a template with the
legacy name `maths rating` and a class parameter is recognized, but the
Assessment it yields carries the template's own lower-cased name as the
project, not the alias table's canonical value `wikiproject mathematics`. -/
theorem c5_alias_not_canonicalized_cex :
    get_assessments [⟨"maths rating", [("class", "b")]⟩] =
      [⟨"b", none, "maths rating"⟩] ∧
    "maths rating" ≠ "wikiproject mathematics" := by decide

/-- Claim C5 (amended): a template whose name is exactly the legacy alias
`maths rating` is a candidate assessment via the static alias table (the
lookup uses the raw template name; the table's keys are lower-case, so only
the already-lower-case spelling matches this way), and the resulting
Assessment's project is the template's own lower-cased name — the alias
table's canonical value is never applied. -/
theorem c5_alias_candidate_own_name (ps : List (String × String)) (v : String)
    (h : ps.lookup "class" = some v) :
    get_assessments [⟨"maths rating", ps⟩] =
      [⟨strLower (strTrim v),
        (ps.lookup "importance").map (fun iv => strLower (strTrim iv)),
        "maths rating"⟩] ∧
    (translations.lookup "maths rating").isSome = true := by
  constructor
  · have hname : strLower "maths rating" = "maths rating" := by decide
    have htr : (translations.lookup "maths rating").isSome = true := by decide
    simp only [get_assessments, List.filterMap_cons, List.filterMap_nil,
      htr, h, Bool.or_true, Bool.true_or, Option.isSome_some, if_true, hname]
  · decide

/-- Claim C5 witness: the amended statement at a concrete parameter list. -/
theorem c5_alias_candidate_own_name_w :
    get_assessments [⟨"maths rating", [("class", " B ")]⟩] =
      [⟨strLower (strTrim " B "),
        (List.lookup "importance" [("class", " B ")]).map
          (fun iv => strLower (strTrim iv)),
        "maths rating"⟩] ∧
    (translations.lookup "maths rating").isSome = true :=
  c5_alias_candidate_own_name [("class", " B ")] " B " (by decide)

/-! ### Claim C6 -/

/-- Claim C6, as stated, is false: when the point query finds no row for the
revision id, `is_reverted` does not report the check as unperformable — it
returns plain `False` (the walk over the still-empty windows), and the
resolver's assessment-free branch consumes that value as "not reverted" and
terminates the scan. -/
theorem c6_missing_row_cex :
    curPageTs envW.db 999 = none ∧
    is_reverted envW 999 15 = .ok (some false) ∧
    scanRevs envW 3 [⟨999, 7, none⟩] (-1) = .ok (-1) := by decide

/-- Claim C6 (amended): when the single point query for a revision's page
id and timestamp finds no row, `is_reverted` logs, breaks out of the retry
loop, and falls through to return `False` — indistinguishable from a
genuine not-reverted answer — so the resolver's reverted/not-reverted
branch does rely on it (treating the revision as not reverted). -/
theorem c6_missing_row_is_reverted_false (env : Env) (revid radius : Nat)
    (h0 : env.revertFail revid 0 = none)
    (hcur : curPageTs env.db revid = none) :
    is_reverted env revid radius = .ok (some false) := by
  unfold is_reverted
  rw [runRetry_first_ok _ _ _ _ _ h0, hcur]
  rfl

/-- Claim C6 witness: the amended statement at a concrete world. -/
theorem c6_missing_row_is_reverted_false_w :
    is_reverted envW 999 15 = .ok (some false) :=
  c6_missing_row_is_reverted_false envW 999 15 rfl (by decide)

/-! ### Claim C2 -/

/-- Claim C2: for a revision whose page id and timestamp resolve (to a
truthy page id), `is_reverted` answers true exactly when some checksum of
the future window also occurs in the past window, and false exactly
otherwise — in particular false when either window is empty, and with a
truth value that depends only on the windows, not on which element
matched. -/
theorem c2_is_reverted_iff_intersection (env : Env) (revid radius p t : Nat)
    (h0 : env.revertFail revid 0 = none)
    (hcur : curPageTs env.db revid = some (p, t)) (hp : p ≠ 0) :
    (is_reverted env revid radius = .ok (some true) ↔
      ∃ c, c ∈ futChecksums env.db p t radius ∧
           c ∈ pastChecksums env.db p t radius) ∧
    (is_reverted env revid radius = .ok (some false) ↔
      ¬ ∃ c, c ∈ futChecksums env.db p t radius ∧
             c ∈ pastChecksums env.db p t radius) := by
  have hred : is_reverted env revid radius =
      .ok (some (walkFuture (futChecksums env.db p t radius)
                            (pastChecksums env.db p t radius))) := by
    unfold is_reverted
    rw [runRetry_first_ok _ _ _ _ _ h0, hcur]
    simp [hp]
  rw [hred]
  simp only [← walkFuture_true_iff]
  cases walkFuture (futChecksums env.db p t radius)
      (pastChecksums env.db p t radius) <;> simp

/-- Claim C2 witness: the equivalence at a concrete revision of the test
world (revision 203, pivot time 30 on page 2). -/
theorem c2_is_reverted_iff_intersection_w :
    (is_reverted envW 203 15 = .ok (some true) ↔
      ∃ c, c ∈ futChecksums envW.db 2 30 15 ∧
           c ∈ pastChecksums envW.db 2 30 15) ∧
    (is_reverted envW 203 15 = .ok (some false) ↔
      ¬ ∃ c, c ∈ futChecksums envW.db 2 30 15 ∧
             c ∈ pastChecksums envW.db 2 30 15) :=
  c2_is_reverted_iff_intersection envW 203 15 2 30 rfl (by decide) (by decide)

/-! ### Claim C3 -/

/-- Claim C3, as stated, is false: in the UNCHANGED terminal state (empty
list of earlier talk revisions) the record keeps the *latest* talk revision
id set in step 1, whose timestamp can be later than the starting article
revision's.  In `dbL`, talk revision 200 (time 80) is after article
revision 100 (time 50), yet resolution completes and leaves
`talkpagerev = 200`. -/
theorem c3_unchanged_keeps_later_talkrev_cex :
    clean_article envL recW = .ok ⟨some 100, 1, some 2, some 200, "b"⟩ ∧
    revTs envL.db 200 = some 80 ∧ revTs envL.db 100 = some 50 ∧
    ¬ (80 : Nat) < 50 := by decide

/-- Claim C3 (amended): whenever the backward scan records a boundary
(result ≥ 0, the only case in which the resolver overwrites
`talkPageRevisionId`), the boundary is one of the scanned talk revisions,
and every scanned talk revision — hence the boundary — has a timestamp
strictly earlier than the starting article revision's; in the
UNCHANGED/sentinel terminal states the retained latest talk revision id
carries no such guarantee. -/
theorem c3_boundary_timestamp_lt_start (env : Env) (s tpid artrev ts : Nat)
    (p : Int) (hts : revTs env.db artrev = some ts)
    (hscan : scanRevs env s (tp_rev_list env.db (some tpid) (some artrev))
        (-1) = .ok p)
    (hpos : 0 ≤ p) :
    ∃ r ∈ tp_rev_list env.db (some tpid) (some artrev),
      p = Int.ofNat r.id ∧ r.timestamp < ts := by
  rcases scanRevs_ok_mem _ _ _ _ _ hscan with h1 | ⟨r, hr, hp2⟩
  · omega
  · exact ⟨r, hr, hp2, tp_rev_list_timestamp_lt _ _ _ _ _ hts hr⟩

/-- Claim C3 witness: in the test world the scan resolves boundary 202,
which is a scanned talk revision with timestamp 20 < 50. -/
theorem c3_boundary_timestamp_lt_start_w :
    ∃ r ∈ tp_rev_list envW.db (some 2) (some 100),
      (202 : Int) = Int.ofNat r.id ∧ r.timestamp < 50 :=
  c3_boundary_timestamp_lt_start envW 3 2 100 50 202 (by decide) (by decide)
    (by decide)

/-! ### Claim C4 -/

/-- Auxiliary recursion for the same-class run: scanning a non-empty prefix
of revisions all rated at the target ordinal rewrites the accumulator to
the last (oldest) of them and continues with the remainder. -/
theorem scan_same_class_run (env : Env) (s : Nat) :
    ∀ (ms rest : List TPRevision) (rlast : TPRevision) (p0 : Int),
      ms.getLast? = some rlast →
      (∀ r ∈ ms, classify env r.id = .rated s) →
      scanRevs env s (ms ++ rest) p0 =
        scanRevs env s rest (Int.ofNat rlast.id)
  | [], _, _, _, hlast, _ => by simp at hlast
  | [r], rest, rlast, p0, hlast, hall => by
      simp only [List.getLast?_singleton, Option.some.injEq] at hlast
      subst hlast
      have hr := hall r (List.mem_cons_self _ _)
      simp [scanRevs, hr]
  | r :: r2 :: ms3, rest, rlast, p0, hlast, hall => by
      rw [List.getLast?_cons_cons] at hlast
      have hr := hall r (List.mem_cons_self _ _)
      have hih := scan_same_class_run env s (r2 :: ms3) rest rlast
        (Int.ofNat r.id) hlast (fun x hx => hall x (List.mem_cons_of_mem _ hx))
      simp only [List.cons_append, scanRevs, hr]
      simpa using hih

/-- Claim C4: when the backward scan meets several consecutive revisions
whose maximum mapped ordinal equals the target ordinal, each of them
becomes the new best match and scanning continues past it, so the
accumulator after the run is the oldest revision of the run — not the first
(newest) one encountered — and the scan proceeds into the remainder of the
list from there. -/
theorem c4_scan_keeps_oldest_same_class (env : Env) (s : Nat)
    (ms rest : List TPRevision) (rlast : TPRevision) (p0 : Int)
    (hlast : ms.getLast? = some rlast)
    (hall : ∀ r ∈ ms, classify env r.id = .rated s) :
    scanRevs env s (ms ++ rest) p0 =
      scanRevs env s rest (Int.ofNat rlast.id) :=
  scan_same_class_run env s ms rest rlast p0 hlast hall

/-- Claim C4 witness: in the test world, scanning the two b-rated revisions
203 and 202 (newest first) and then the c-rated revision 201 leaves the
best match at 202, the oldest of the b run. -/
theorem c4_scan_keeps_oldest_same_class_w :
    scanRevs envW 3 ([⟨203, 30, none⟩, ⟨202, 20, none⟩] ++ [⟨201, 15, none⟩])
        (-1) =
      scanRevs envW 3 [⟨201, 15, none⟩] (Int.ofNat 202) :=
  c4_scan_keeps_oldest_same_class envW 3 [⟨203, 30, none⟩, ⟨202, 20, none⟩]
    [⟨201, 15, none⟩] ⟨202, 20, none⟩ (-1) (by decide) (by decide)

/-! ### Claim C7 -/

/-- Claim C7: when the list of talk revisions strictly earlier than the
current article revision is empty, resolution returns at once and the
record keeps exactly the values it has at that point (those set by the
step-1 latest-revision query) — no further mutation happens. -/
theorem c7_empty_tp_revs_unchanged (env : Env) (rec : ArticleRecord) (k : Nat)
    (hk : wp10_scale.lookup (strLower rec.quality_class) = some k)
    (h1 : env.latestFail 0 = none) (h2 : env.tpFail 0 = none)
    (hempty : tp_rev_list env.db
        (applyLatest (latest_rows env.db rec.pageid) rec).talkpageid
        (applyLatest (latest_rows env.db rec.pageid) rec).revid = []) :
    clean_article env rec =
      .ok (applyLatest (latest_rows env.db rec.pageid) rec) := by
  unfold clean_article
  rw [hk]
  rw [runRetry_first_ok _ _ _ _ _ h1]
  dsimp only
  rw [runRetry_first_ok _ _ _ _ _ h2]
  dsimp only
  rw [hempty]
  rfl

/-- Claim C7 witness: in the world `envL` the talk page has no revision
before the article's latest one, and the record comes back exactly as the
latest-revision query left it. -/
theorem c7_empty_tp_revs_unchanged_w :
    clean_article envL recW =
      .ok (applyLatest (latest_rows envL.db recW.pageid) recW) :=
  c7_empty_tp_revs_unchanged envL recW 3 (by decide) rfl rfl (by decide)

/-! ### Claim C8 -/

/-- Claim C8, as stated, is false at the fallback call site: in `envF` the
next-revision fallback query raises a non-transient `ProgrammingError` on
its first attempt, yet the error does not propagate — the site catches the
base error class, retries, and resolution completes normally. -/
theorem c8_fallback_retries_nontransient_cex :
    envF.nextFail 0 = some .programming ∧
    clean_article envF recW ≠ .error (.dbError .programming) ∧
    clean_article envF recW = .ok ⟨some 100, 1, some 2, some 200, "b"⟩ := by
  decide

/-- Claim C8 (amended): at the call sites that catch only
`OperationalError` (the latest-revision, talk-list, recent-revision and
revert-check queries), a non-transient error propagates immediately with no
retry; the fallback next-revision site instead catches the base
`MySQLdb.Error` class, so there even a non-transient error is retried and a
subsequent successful attempt masks it. -/
theorem c8_retry_discipline_per_site {α : Type}
    (fail : Nat → Option DBError) (r : α) :
    (∀ e, fail 0 = some e → opCatches e = false →
      runRetry opCatches fail r 0 3 = .raised e) ∧
    (fail 0 = some .programming → fail 1 = none →
      runRetry errCatches fail r 0 3 = .ok r) := by
  constructor
  · intro e h he
    exact runRetry_uncaught _ _ _ 0 2 _ h he
  · intro h0 h1
    calc runRetry errCatches fail r 0 3
        = runRetry errCatches fail r 1 2 :=
          runRetry_caught _ _ _ 0 2 _ h0 rfl
      _ = .ok r := runRetry_first_ok _ _ _ 1 1 h1

/-- Claim C8 witness: the amended statement at concrete failure
schedules. -/
theorem c8_retry_discipline_per_site_w :
    runRetry opCatches (fun _ => some .programming) (0 : Nat) 0 3 =
      .raised .programming ∧
    runRetry errCatches (fun n => if n = 0 then some .programming else none)
      (0 : Nat) 0 3 = .ok 0 :=
  ⟨(c8_retry_discipline_per_site (fun _ => some .programming) 0).1
      .programming rfl rfl,
   (c8_retry_discipline_per_site
      (fun n => if n = 0 then some .programming else none) 0).2 rfl rfl⟩

/-! ### Claim C9 -/

/-- Claim C9: a revision the content API returns without a content field
keeps `content = none` in `get_revisions`' result (same position, same id,
no exception), the scan skips a content-free revision and continues with
the rest of the list unchanged, and an API response assigning no content
indeed surfaces to the scan as absent content. -/
theorem c9_absent_content_skipped :
    (∀ (resp : List APIPage) (revs : List TPRevision) (i : Nat)
       (r : TPRevision), revs[i]? = some r →
       lastContentFor resp r.id = some none →
       ∃ r2, (get_revisions resp revs)[i]? = some r2 ∧ r2.id = r.id ∧
         r2.content = none) ∧
    (∀ (env : Env) (s : Nat) (r : TPRevision) (rest : List TPRevision)
       (p : Int), fetchContent env r.id = none →
       scanRevs env s (r :: rest) p = scanRevs env s rest p) ∧
    (∀ (env : Env) (revid : Nat),
       lastContentFor env.api revid = some none →
       fetchContent env revid = none) := by
  refine ⟨?_, ?_, ?_⟩
  · intro resp revs i r hi hlast
    refine ⟨{ r with content := none }, ?_, rfl, rfl⟩
    unfold get_revisions
    rw [List.getElem?_map, hi]
    simp [hlast]
  · intro env s r rest p h
    have hc : classify env r.id = .skip := by
      unfold classify
      rw [h]
    simp [scanRevs, hc]
  · intro env revid h
    unfold fetchContent
    rw [h]

/-- Claim C9 witness: revision 777, returned by the API without content,
stays content-free and is skipped by the scan. -/
theorem c9_absent_content_skipped_w :
    (∃ r2, (get_revisions resp9 [⟨777, 9, none⟩])[0]? = some r2 ∧
       r2.id = 777 ∧ r2.content = none) ∧
    scanRevs env9 0 [⟨777, 9, none⟩] (-1) = scanRevs env9 0 [] (-1) ∧
    fetchContent env9 777 = none :=
  ⟨(c9_absent_content_skipped).1 resp9 [⟨777, 9, none⟩] 0 ⟨777, 9, none⟩ rfl
     (by decide),
   (c9_absent_content_skipped).2.1 env9 0 ⟨777, 9, none⟩ [] (-1) (by decide),
   (c9_absent_content_skipped).2.2 env9 777 (by decide)⟩

/-! ### Claim C10 -/

/-- Claim C10: on every plain return path of `clean_article` — retry
exhaustion, empty revision list, sentinel, fallback failure, or successful
resolution — the returned record has the input's `pageid` and class label;
only the revision-related fields are ever overwritten. -/
theorem c10_only_rev_fields_mutated (env : Env) (rec res : ArticleRecord)
    (h : clean_article env rec = .ok res) :
    res.pageid = rec.pageid ∧ res.quality_class = rec.quality_class := by
  unfold clean_article at h
  split at h
  all_goals try (dsimp only at h)
  all_goals try (split at h)
  all_goals try (dsimp only at h)
  all_goals try (split at h)
  all_goals try (dsimp only at h)
  all_goals try (split at h)
  all_goals try (dsimp only at h)
  all_goals try (split at h)
  all_goals try (dsimp only at h)
  all_goals try (split at h)
  all_goals try (dsimp only at h)
  all_goals try (split at h)
  all_goals try (dsimp only at h)
  all_goals try (split at h)
  all_goals try (dsimp only at h)
  all_goals try (split at h)
  all_goals try (dsimp only at h)
  all_goals try (split at h)
  all_goals try (dsimp only at h)
  all_goals try (split at h)
  all_goals try (dsimp only at h)
  all_goals try (split at h)
  all_goals try (dsimp only at h)
  all_goals try (split at h)
  all_goals
    first
      | (subst h; exact ⟨rfl, rfl⟩)
      | (subst h; exact ⟨(applyLatest_frame _ _).1, (applyLatest_frame _ _).2⟩)
      | (injection h with h2; subst h2; exact ⟨rfl, rfl⟩)
      | (injection h with h2; subst h2;
         exact ⟨(applyLatest_frame _ _).1, (applyLatest_frame _ _).2⟩)
      | exact absurd h (by simp)
      | simp at h

/-- Claim C10 witness: a successful resolution in the test world keeps the
record's page id and class label. -/
theorem c10_only_rev_fields_mutated_w :
    (⟨some 95, 1, some 2, some 202, "b"⟩ : ArticleRecord).pageid =
      recW.pageid ∧
    (⟨some 95, 1, some 2, some 202, "b"⟩ : ArticleRecord).quality_class =
      recW.quality_class :=
  c10_only_rev_fields_mutated envW recW _ (by decide)

end Assessments
